import Mathlib

/-!
# Local Position Estimator (`sw/airborne/modules/ins/ins_lpe.c`)

A shallow embedding of the estimator's data model and of every function of
`ins_lpe.c`, followed by the properties proved about them.

Modelling conventions

* C `float` values are rationals (exact arithmetic); `uint8_t` / `uint32_t`
  values that are only stored or compared are natural numbers.
* The single global `struct InsLpe ins_lpe` is an explicit value that every
  function receives and returns.
* A matrix `M.matrix[i][j]` is read and written through its backing buffer
  `M_data`; the row-pointer table set up by `POPULATE_MATRIX_PTR` is not
  represented separately.
* What the module reads from other subsystems (system clock, attitude, IMU
  mounting rotation, the integer derotation routine) is collected in `Env`
  and passed to the function that performs the read.
-/

namespace Paparazzi

/-! ## Constants and types of `ins_lpe.h` -/

/-- Modelled from the spec: `ins_lpe.h` is not among the sources. Number of
states: position, velocity and accelerometer bias, three axes each. -/
def n_x : Nat := 9

/-- Modelled from the spec: `ins_lpe.h` is not among the sources. Number of
inputs: the three acceleration components. -/
def n_u : Nat := 3

/-- Modelled from the spec: state index of the x position. -/
def X_x : Fin 9 := 0
/-- Modelled from the spec: state index of the y position. -/
def X_y : Fin 9 := 1
/-- Modelled from the spec: state index of the z position. -/
def X_z : Fin 9 := 2
/-- Modelled from the spec: state index of the x velocity. -/
def X_vx : Fin 9 := 3
/-- Modelled from the spec: state index of the y velocity. -/
def X_vy : Fin 9 := 4
/-- Modelled from the spec: state index of the z velocity. -/
def X_vz : Fin 9 := 5
/-- Modelled from the spec: state index of the x accelerometer bias. -/
def X_bx : Fin 9 := 6
/-- Modelled from the spec: state index of the y accelerometer bias. -/
def X_by : Fin 9 := 7
/-- Modelled from the spec: state index of the z accelerometer bias. -/
def X_bz : Fin 9 := 8

/-- Modelled from the spec: input index of the x acceleration. -/
def U_ax : Fin 3 := 0
/-- Modelled from the spec: input index of the y acceleration. -/
def U_ay : Fin 3 := 1
/-- Modelled from the spec: input index of the z acceleration. -/
def U_az : Fin 3 := 2

/-- Matrix descriptor used for `A`, `B`, `R`, `Q`, `P`, with the fields that
`ins_lpe.c` accesses: the ready marker, the row / column counts and the
contents reached through `matrix`. The capacity `r × c` is that of the
backing buffer. -/
structure LpeMatrix (r c : Nat) where
  initialized : Bool
  rows : Nat
  cols : Nat
  matrix : Fin r → Fin c → ℚ

/-- Integer vector `struct Int32Vect3`. -/
structure Int32Vect3 where
  x : Int
  y : Int
  z : Int
deriving DecidableEq

/-- Float rotation matrix `struct FloatRMat`, indexed by row and column. -/
abbrev FloatRMat := Fin 3 → Fin 3 → ℚ

/-- Integer rotation matrix `struct Int32RMat`, indexed by row and column. -/
abbrev Int32RMat := Fin 3 → Fin 3 → Int

/-- Modelled from the spec: `RMAT_ELMT` (pprz_algebra) is not among the
sources. Element `(row, col)` of a rotation matrix. -/
def RMAT_ELMT (rm : FloatRMat) (row col : Fin 3) : ℚ := rm row col

/-- Modelled from the spec: `float_rmat_inv` (pprz_algebra_float) is not among
the sources. The inverse of a rotation matrix is its transpose: element
`(row, col)` of the result is element `(col, row)` of the argument. -/
def float_rmat_inv (m_a2b : FloatRMat) : FloatRMat := fun row col => m_a2b col row

/-- Modelled from the spec: `float_mat_zero` (pprz_algebra_float) is not among
the sources. Zeroing with explicit row and column counts: every element with
row index below `m` and column index below `n` becomes 0. -/
def float_mat_zero {r c : Nat} (a : Fin r → Fin c → ℚ) (m n : Nat) : Fin r → Fin c → ℚ :=
  fun i j => if i.val < m ∧ j.val < n then 0 else a i j

/-- Assignment `a[i][j] = v`. -/
def mat_set {r c : Nat} (a : Fin r → Fin c → ℚ) (i : Fin r) (j : Fin c) (v : ℚ) :
    Fin r → Fin c → ℚ :=
  fun k l => if k = i ∧ l = j then v else a k l

/-- Accelerometer buffer `ins_lpe.accel`, with the fields that `accel_cb`
writes. -/
structure LpeAccel where
  timestamp : Nat
  accel_meas_body : Int32Vect3
  accel_meas_ltp : Int32Vect3
  data_available : Bool
deriving DecidableEq

/-- Range sensor buffer, the type of `ins_lpe.sonar` and `ins_lpe.lidar`, with
the fields that `sonar_cb` and `lidar_cb` access. -/
structure LpeRange where
  timestamp : Nat
  agl : ℚ
  offset : ℚ
  max_distance : ℚ
  min_distance : ℚ
  data_available : Bool
deriving DecidableEq

/-- Modelled from the spec: the barometer buffer (timestamp, measurement,
freshness flag); `ins_lpe.c` never accesses it. -/
structure LpeBaro where
  timestamp : Nat
  pressure : ℚ
  data_available : Bool
deriving DecidableEq

/-- Modelled from the spec: the GPS buffer (timestamp, position measurement,
freshness flag); `ins_lpe.c` never accesses it. -/
structure LpeGps where
  timestamp : Nat
  pos : Int32Vect3
  data_available : Bool
deriving DecidableEq

/-- Modelled from the spec: the optical-flow velocity buffer (timestamp,
velocity measurement, freshness flag); `ins_lpe.c` never accesses it. -/
structure LpeFlow where
  timestamp : Nat
  vel_x : ℚ
  vel_y : ℚ
  vel_z : ℚ
  data_available : Bool
deriving DecidableEq

/-- GPS message payload `struct GpsState`; `gps_cb` does not read it. -/
structure GpsState where
  ecef_pos : Int32Vect3
deriving DecidableEq

/-- The estimator `struct InsLpe`: the fields that `ins_lpe.c` accesses, and
the three buffers of the sensors whose handlers are empty. -/
structure InsLpe where
  A : LpeMatrix 9 9
  B : LpeMatrix 9 3
  R : LpeMatrix 3 3
  Q : LpeMatrix 9 9
  P : LpeMatrix 9 9
  x : Fin 9 → ℚ
  u : Fin 3 → ℚ
  accel_xy_stddev : ℚ
  accel_z_stddev : ℚ
  pn_p_noise_density : ℚ
  pn_v_noise_density : ℚ
  pn_b_noise_density : ℚ
  initialized : Bool
  accel : LpeAccel
  sonar : LpeRange
  lidar : LpeRange
  baro : LpeBaro
  gps : LpeGps
  flow : LpeFlow

/-- What the module reads from the rest of the autopilot during one call. -/
structure Env where
  get_sys_time_usec : Nat
  stateGetNedToBodyRMat_f : FloatRMat
  stateGetNedToBodyRMat_i : Int32RMat
  body_to_imu_rmat : Int32RMat
  int32_rmat_transp_vmult : Int32RMat → Int32Vect3 → Int32Vect3

/-! ## State-space model -/

/-- Set initial values for A and B. -/
def ins_lpe_init_states (s : InsLpe) : InsLpe :=
  let a := mat_set s.A.matrix X_x X_vx 1
  let a := mat_set a X_y X_vy 1
  let a := mat_set a X_z X_vz 1
  let b := mat_set s.B.matrix X_vx U_ax 1
  let b := mat_set b X_vy U_ay 1
  let b := mat_set b X_vz U_az 1
  { s with A := { s.A with matrix := a }, B := { s.B with matrix := b } }

/-- Update A with new values from the rotation matrix. -/
def ins_lpe_update_states (env : Env) (s : InsLpe) : InsLpe :=
  let R := env.stateGetNedToBodyRMat_f
  let RT := float_rmat_inv R
  let a := mat_set s.A.matrix X_vx X_bx (-RMAT_ELMT RT 0 0)
  let a := mat_set a X_vx X_by (-RMAT_ELMT RT 0 1)
  let a := mat_set a X_vx X_bz (-RMAT_ELMT RT 0 2)
  let a := mat_set a X_vy X_bx (-RMAT_ELMT RT 1 0)
  let a := mat_set a X_vy X_by (-RMAT_ELMT RT 1 1)
  let a := mat_set a X_vy X_bz (-RMAT_ELMT RT 1 2)
  let a := mat_set a X_vz X_bx (-RMAT_ELMT RT 2 0)
  let a := mat_set a X_vz X_by (-RMAT_ELMT RT 2 1)
  let a := mat_set a X_vz X_bz (-RMAT_ELMT RT 2 2)
  { s with A := { s.A with matrix := a } }

/-- Fill in the R and Q matrices. -/
def ins_lpe_update_params (s : InsLpe) : InsLpe :=
  let r := mat_set s.R.matrix U_ax U_ax (s.accel_xy_stddev * s.accel_xy_stddev)
  let r := mat_set r U_ay U_ay (s.accel_xy_stddev * s.accel_xy_stddev)
  let r := mat_set r U_az U_az (s.accel_z_stddev * s.accel_z_stddev)
  let pn_p_sq := s.pn_p_noise_density * s.pn_p_noise_density
  let pn_v_sq := s.pn_v_noise_density * s.pn_v_noise_density
  let q := mat_set s.Q.matrix X_x X_x pn_p_sq
  let q := mat_set q X_y X_y pn_p_sq
  let q := mat_set q X_z X_z pn_p_sq
  let q := mat_set q X_vx X_vx pn_v_sq
  let q := mat_set q X_vy X_vy pn_v_sq
  let q := mat_set q X_vz X_vz pn_v_sq
  let pn_b_sq := s.pn_b_noise_density * s.pn_b_noise_density
  let q := mat_set q X_bx X_bx pn_b_sq
  let q := mat_set q X_by X_by pn_b_sq
  let q := mat_set q X_bz X_bz pn_b_sq
  { s with R := { s.R with matrix := r }, Q := { s.Q with matrix := q } }

/-- Reset states (matrices and vectors) back to their initial value. For each
matrix: clear the ready marker, set rows and cols, zero `rows × cols`
entries, set the ready marker. The two pointer assignments in between
(`POPULATE_MATRIX_PTR`, `matrix = &..._data_ptr[0]`) bind `matrix` to the
backing buffer and change no value of the model. -/
def ins_lpe_reset_states (s : InsLpe) : InsLpe :=
  -- process matrix A 9x9
  let A : LpeMatrix 9 9 := { s.A with initialized := false }
  let A : LpeMatrix 9 9 := { A with rows := n_x }
  let A : LpeMatrix 9 9 := { A with cols := n_x }
  let A : LpeMatrix 9 9 := { A with matrix := float_mat_zero A.matrix A.rows A.cols }
  let A : LpeMatrix 9 9 := { A with initialized := true }
  -- input matrix B 9x3
  let B : LpeMatrix 9 3 := { s.B with initialized := false }
  let B : LpeMatrix 9 3 := { B with rows := n_x }
  let B : LpeMatrix 9 3 := { B with cols := n_u }
  let B : LpeMatrix 9 3 := { B with matrix := float_mat_zero B.matrix B.rows B.cols }
  let B : LpeMatrix 9 3 := { B with initialized := true }
  -- measurement noise covariance matrix R 3x3
  let R : LpeMatrix 3 3 := { s.R with initialized := false }
  let R : LpeMatrix 3 3 := { R with rows := n_u }
  let R : LpeMatrix 3 3 := { R with cols := n_u }
  let R : LpeMatrix 3 3 := { R with matrix := float_mat_zero R.matrix R.rows R.cols }
  let R : LpeMatrix 3 3 := { R with initialized := true }
  -- process noise covariance Q 9x9
  let Q : LpeMatrix 9 9 := { s.Q with initialized := false }
  let Q : LpeMatrix 9 9 := { Q with rows := n_x }
  let Q : LpeMatrix 9 9 := { Q with cols := n_x }
  let Q : LpeMatrix 9 9 := { Q with matrix := float_mat_zero Q.matrix Q.rows Q.cols }
  let Q : LpeMatrix 9 9 := { Q with initialized := true }
  -- estimate error covariance P 9x9
  let P : LpeMatrix 9 9 := { s.P with initialized := false }
  let P : LpeMatrix 9 9 := { P with rows := n_x }
  let P : LpeMatrix 9 9 := { P with cols := n_x }
  let P : LpeMatrix 9 9 := { P with matrix := float_mat_zero P.matrix P.rows P.cols }
  let P : LpeMatrix 9 9 := { P with initialized := true }
  -- state vector 9x1 and input vector 3x1
  { s with A := A, B := B, R := R, Q := Q, P := P, x := fun _ => 0, u := fun _ => 0 }

/-! ## Sensor bus (ABI) -/

/-- Message classes of the sensor bus to which the estimator subscribes. -/
inductive AbiMsg where
  | IMU_ACCEL_INT32
  | GPS
  | VELOCITY_ESTIMATE
  | AGL
  | BARO_ABS
deriving DecidableEq, Repr

/-- The ingestion handlers of `ins_lpe.c`. -/
inductive Callback where
  | accel_cb
  | gps_cb
  | vel_est_cb
  | sonar_cb
  | lidar_cb
  | baro_cb
deriving DecidableEq, Repr

/-- One registration with the bus: message class, source identifier and the
handler to call. -/
structure AbiBinding where
  msg : AbiMsg
  id : Nat
  cb : Callback
deriving DecidableEq, Repr

/-- Source identifiers resolved at build time: the wildcard `ABI_BROADCAST`
and the identifier each handler is bound to (`INS_LPE_*_ID`). -/
structure AbiConfig where
  ABI_BROADCAST : Nat
  INS_LPE_BARO_ID : Nat
  INS_LPE_IMU_ID : Nat
  INS_LPE_GPS_ID : Nat
  INS_LPE_VEL_ID : Nat
  INS_LPE_LIDAR_ID : Nat
  INS_LPE_SONAR_ID : Nat

/-- Modelled from the spec: `AbiBindMsg*` (subsystems/abi.h) is not among the
sources. Registers a handler against a source identifier with the bus: one
more binding is added to the bus's list. -/
def AbiBindMsg (msg : AbiMsg) (id : Nat) (cb : Callback) (queue : List AbiBinding) :
    List AbiBinding :=
  { msg := msg, id := id, cb := cb } :: queue

/-- The module's global data: the estimator and the bus bindings. -/
structure Globals where
  ins_lpe : InsLpe
  abi_queues : List AbiBinding

/-- Init function: populate the Kalman filter, bind the ABI messages. -/
def ins_lpe_init (cfg : AbiConfig) (env : Env) (g : Globals) : Globals :=
  let s := { g.ins_lpe with initialized := false }
  let s :=
    if !s.initialized then
      let s := ins_lpe_reset_states s
      let s := ins_lpe_init_states s
      let s := ins_lpe_update_states env s
      let s := ins_lpe_update_params s
      { s with initialized := true }
    else s
  let q := AbiBindMsg AbiMsg.IMU_ACCEL_INT32 cfg.INS_LPE_IMU_ID Callback.accel_cb g.abi_queues
  let q := AbiBindMsg AbiMsg.GPS cfg.INS_LPE_GPS_ID Callback.gps_cb q
  let q := AbiBindMsg AbiMsg.VELOCITY_ESTIMATE cfg.INS_LPE_VEL_ID Callback.vel_est_cb q
  let q := AbiBindMsg AbiMsg.AGL cfg.INS_LPE_SONAR_ID Callback.sonar_cb q
  let q := AbiBindMsg AbiMsg.AGL cfg.INS_LPE_LIDAR_ID Callback.lidar_cb q
  let q := AbiBindMsg AbiMsg.BARO_ABS cfg.INS_LPE_BARO_ID Callback.baro_cb q
  { ins_lpe := s, abi_queues := q }

/-! ## Fusion cycle and ingestion handlers -/

/-- Periodic function; its body is empty. -/
def ins_lpe_periodic (s : InsLpe) : InsLpe := s

/-- Baro callback; its body is empty. -/
def baro_cb (_sender_id : Nat) (_pressure : ℚ) (s : InsLpe) : InsLpe := s

/-- Sonar callback. -/
def sonar_cb (env : Env) (_sender_id : Nat) (distance : ℚ) (s : InsLpe) : InsLpe :=
  let sonar := { s.sonar with timestamp := env.get_sys_time_usec }
  let sonar := { sonar with agl := distance - sonar.offset }
  let sonar :=
    if sonar.agl > sonar.max_distance then { sonar with agl := sonar.max_distance } else sonar
  let sonar :=
    if sonar.agl < sonar.min_distance then { sonar with agl := sonar.min_distance } else sonar
  let sonar := { sonar with data_available := true }
  { s with sonar := sonar }

/-- Lidar callback. -/
def lidar_cb (env : Env) (_sender_id : Nat) (distance : ℚ) (s : InsLpe) : InsLpe :=
  let lidar := { s.lidar with timestamp := env.get_sys_time_usec }
  let lidar := { lidar with agl := distance - lidar.offset }
  let lidar :=
    if lidar.agl > lidar.max_distance then { lidar with agl := lidar.max_distance } else lidar
  let lidar :=
    if lidar.agl < lidar.min_distance then { lidar with agl := lidar.min_distance } else lidar
  let lidar := { lidar with data_available := true }
  { s with lidar := lidar }

/-- Accel callback. -/
def accel_cb (env : Env) (_sender_id : Nat) (stamp : Nat) (accel : Int32Vect3) (s : InsLpe) :
    InsLpe :=
  let acc := { s.accel with timestamp := stamp }
  let body_to_imu_rmat := env.body_to_imu_rmat
  let acc := { acc with accel_meas_body := env.int32_rmat_transp_vmult body_to_imu_rmat accel }
  let acc :=
    { acc with
      accel_meas_ltp :=
        env.int32_rmat_transp_vmult env.stateGetNedToBodyRMat_i acc.accel_meas_body }
  let acc := { acc with data_available := true }
  { s with accel := acc }

/-- GPS callback; its body is empty. -/
def gps_cb (_sender_id : Nat) (_stamp : Nat) (_gps_s : GpsState) (s : InsLpe) : InsLpe := s

/-- Optical flow callback; its body is empty. -/
def vel_est_cb (_sender_id : Nat) (_stamp : Nat) (_x _y _z _noise : ℚ) (s : InsLpe) : InsLpe := s

/-! ## Bus dispatch and call sequences -/

/-- A message published on the bus, with the payload its handlers receive. -/
inductive AbiEvent where
  | IMU_ACCEL_INT32 (stamp : Nat) (accel : Int32Vect3)
  | GPS (stamp : Nat) (gps_s : GpsState)
  | VELOCITY_ESTIMATE (stamp : Nat) (x y z noise : ℚ)
  | AGL (distance : ℚ)
  | BARO_ABS (pressure : ℚ)

/-- The message class of a published message. -/
def AbiEvent.msg : AbiEvent → AbiMsg
  | AbiEvent.IMU_ACCEL_INT32 _ _ => AbiMsg.IMU_ACCEL_INT32
  | AbiEvent.GPS _ _ => AbiMsg.GPS
  | AbiEvent.VELOCITY_ESTIMATE _ _ _ _ _ => AbiMsg.VELOCITY_ESTIMATE
  | AbiEvent.AGL _ => AbiMsg.AGL
  | AbiEvent.BARO_ABS _ => AbiMsg.BARO_ABS

/-- The call `cb(sender_id, payload...)` of a bound handler. A handler is only
ever bound to the message class whose payload it takes; for any other pairing
nothing is called. -/
def callHandler (env : Env) (cb : Callback) (sender_id : Nat) (ev : AbiEvent) (s : InsLpe) :
    InsLpe :=
  match cb, ev with
  | Callback.accel_cb, AbiEvent.IMU_ACCEL_INT32 stamp accel => accel_cb env sender_id stamp accel s
  | Callback.gps_cb, AbiEvent.GPS stamp gps_s => gps_cb sender_id stamp gps_s s
  | Callback.vel_est_cb, AbiEvent.VELOCITY_ESTIMATE stamp x y z noise =>
      vel_est_cb sender_id stamp x y z noise s
  | Callback.sonar_cb, AbiEvent.AGL distance => sonar_cb env sender_id distance s
  | Callback.lidar_cb, AbiEvent.AGL distance => lidar_cb env sender_id distance s
  | Callback.baro_cb, AbiEvent.BARO_ABS pressure => baro_cb sender_id pressure s
  | _, _ => s

/-- Modelled from the spec: `AbiSendMsg*` (subsystems/abi.h) is not among the
sources. A message tagged with a sender id is delivered to every handler
bound to its message class whose source identifier is either the wildcard or
that sender id; a handler bound to another specific source is not called. -/
def AbiSendMsg (cfg : AbiConfig) (env : Env) (sender_id : Nat) (ev : AbiEvent)
    (queue : List AbiBinding) (s : InsLpe) : InsLpe :=
  queue.foldl
    (fun s b =>
      if b.msg = ev.msg ∧ (b.id = cfg.ABI_BROADCAST ∨ b.id = sender_id) then
        callHandler env b.cb sender_id ev s
      else s)
    s

/-- Number of bindings of a handler held by the bus. -/
def registrations (cb : Callback) (queue : List AbiBinding) : Nat :=
  (queue.filter (fun b => b.cb = cb)).length

/-- Successive calls of `ins_lpe_init`, one per environment of the list. -/
def initCalls (cfg : AbiConfig) (envs : List Env) (g : Globals) : Globals :=
  envs.foldl (fun g env => ins_lpe_init cfg env g) g

/-- One call into the estimator after initialisation: the periodic function
or an ingestion handler with its arguments. -/
inductive Call where
  | periodic
  | accel (env : Env) (sender_id stamp : Nat) (accel : Int32Vect3)
  | sonar (env : Env) (sender_id : Nat) (distance : ℚ)
  | lidar (env : Env) (sender_id : Nat) (distance : ℚ)
  | baro (sender_id : Nat) (pressure : ℚ)
  | gps (sender_id stamp : Nat) (gps_s : GpsState)
  | vel_est (sender_id stamp : Nat) (x y z noise : ℚ)

/-- The effect of one call on the estimator. -/
def applyCall : Call → InsLpe → InsLpe
  | Call.periodic, s => ins_lpe_periodic s
  | Call.accel env sender_id stamp accel, s => accel_cb env sender_id stamp accel s
  | Call.sonar env sender_id distance, s => sonar_cb env sender_id distance s
  | Call.lidar env sender_id distance, s => lidar_cb env sender_id distance s
  | Call.baro sender_id pressure, s => baro_cb sender_id pressure s
  | Call.gps sender_id stamp gps_s, s => gps_cb sender_id stamp gps_s s
  | Call.vel_est sender_id stamp x y z noise, s => vel_est_cb sender_id stamp x y z noise s

/-- The estimator after a finite sequence of calls. -/
def runCalls (calls : List Call) (s : InsLpe) : InsLpe :=
  calls.foldl (fun s c => applyCall c s) s

/-! ## Vocabulary of the statements -/

/-- The state-space model part of two estimators is identical: state and
input vectors, the five matrices with dimensions and ready markers, the
noise tunables and the estimator's initialized flag. -/
def sameModel (s t : InsLpe) : Prop :=
  t.x = s.x ∧ t.u = s.u ∧ t.A = s.A ∧ t.B = s.B ∧ t.Q = s.Q ∧ t.R = s.R ∧ t.P = s.P ∧
  t.initialized = s.initialized ∧
  t.accel_xy_stddev = s.accel_xy_stddev ∧ t.accel_z_stddev = s.accel_z_stddev ∧
  t.pn_p_noise_density = s.pn_p_noise_density ∧ t.pn_v_noise_density = s.pn_v_noise_density ∧
  t.pn_b_noise_density = s.pn_b_noise_density

/-- The position index of an axis: `X_x`, `X_y`, `X_z`. -/
def X_pos (a : Fin 3) : Fin 9 := ![X_x, X_y, X_z] a

/-- The velocity index of an axis: `X_vx`, `X_vy`, `X_vz`. -/
def X_vel (a : Fin 3) : Fin 9 := ![X_vx, X_vy, X_vz] a

/-- The accelerometer-bias index of an axis: `X_bx`, `X_by`, `X_bz`. -/
def X_bias (a : Fin 3) : Fin 9 := ![X_bx, X_by, X_bz] a

/-- The input index of an axis: `U_ax`, `U_ay`, `U_az`. -/
def U_acc (a : Fin 3) : Fin 3 := ![U_ax, U_ay, U_az] a

/-! ## Concrete data used to instantiate the theorems -/

/-- A matrix descriptor with every entry 0 and the ready marker cleared. -/
def zeroMatrix (r c : Nat) : LpeMatrix r c :=
  { initialized := false, rows := 0, cols := 0, matrix := fun _ _ => 0 }

/-- A range buffer with offset 1/10 and valid range [1/5, 4]. -/
def sampleRange : LpeRange :=
  { timestamp := 0, agl := 0, offset := 1 / 10, max_distance := 4, min_distance := 1 / 5,
    data_available := false }

/-- An estimator as it is at program start (all zero), with range-sensor
calibration and noise tunables filled in. -/
def sampleIns : InsLpe :=
  { A := zeroMatrix 9 9, B := zeroMatrix 9 3, R := zeroMatrix 3 3, Q := zeroMatrix 9 9,
    P := zeroMatrix 9 9, x := fun _ => 0, u := fun _ => 0,
    accel_xy_stddev := 1 / 2, accel_z_stddev := 1 / 4,
    pn_p_noise_density := 1 / 10, pn_v_noise_density := 1 / 10, pn_b_noise_density := 1 / 1000,
    initialized := false,
    accel := { timestamp := 0, accel_meas_body := ⟨0, 0, 0⟩, accel_meas_ltp := ⟨0, 0, 0⟩,
               data_available := false },
    sonar := sampleRange, lidar := sampleRange,
    baro := { timestamp := 0, pressure := 0, data_available := false },
    gps := { timestamp := 0, pos := ⟨0, 0, 0⟩, data_available := false },
    flow := { timestamp := 0, vel_x := 0, vel_y := 0, vel_z := 0, data_available := false } }

/-- An environment: clock at 1000 us, identity attitude and mounting, and a
derotation routine that returns its vector argument. -/
def sampleEnv : Env :=
  { get_sys_time_usec := 1000,
    stateGetNedToBodyRMat_f := fun i j => if i = j then 1 else 0,
    stateGetNedToBodyRMat_i := fun i j => if i = j then 1 else 0,
    body_to_imu_rmat := fun i j => if i = j then 1 else 0,
    int32_rmat_transp_vmult := fun _ v => v }

/-- A source configuration: wildcard identifier 0, every handler bound to the
wildcard except GPS, which is bound to source 1. -/
def sampleCfg : AbiConfig :=
  { ABI_BROADCAST := 0, INS_LPE_BARO_ID := 0, INS_LPE_IMU_ID := 0, INS_LPE_GPS_ID := 1,
    INS_LPE_VEL_ID := 0, INS_LPE_LIDAR_ID := 0, INS_LPE_SONAR_ID := 0 }

/-- Program start: the sample estimator and a bus without bindings. -/
def sampleStart : Globals := { ins_lpe := sampleIns, abi_queues := [] }

/-- The module after one call of `ins_lpe_init` from program start. -/
def sampleInit : Globals := ins_lpe_init sampleCfg sampleEnv sampleStart

/-! ## Range-sensor clamping -/

/-- The `agl` value stored by the two conditional assignments of `sonar_cb`
and `lidar_cb`, as a function of the buffer's calibration and the raw
distance. -/
theorem sonar_cb_agl (env : Env) (id : Nat) (d : ℚ) (s : InsLpe) :
    (sonar_cb env id d s).sonar.agl =
      (if (if d - s.sonar.offset > s.sonar.max_distance then s.sonar.max_distance
            else d - s.sonar.offset) < s.sonar.min_distance
        then s.sonar.min_distance
        else (if d - s.sonar.offset > s.sonar.max_distance then s.sonar.max_distance
              else d - s.sonar.offset)) := by
  unfold sonar_cb
  by_cases h1 : d - s.sonar.offset > s.sonar.max_distance <;>
    by_cases h2 : s.sonar.max_distance < s.sonar.min_distance <;>
    by_cases h3 : d - s.sonar.offset < s.sonar.min_distance <;>
    simp [h1, h2, h3]

theorem lidar_cb_agl (env : Env) (id : Nat) (d : ℚ) (s : InsLpe) :
    (lidar_cb env id d s).lidar.agl =
      (if (if d - s.lidar.offset > s.lidar.max_distance then s.lidar.max_distance
            else d - s.lidar.offset) < s.lidar.min_distance
        then s.lidar.min_distance
        else (if d - s.lidar.offset > s.lidar.max_distance then s.lidar.max_distance
              else d - s.lidar.offset)) := by
  unfold lidar_cb
  by_cases h1 : d - s.lidar.offset > s.lidar.max_distance <;>
    by_cases h2 : s.lidar.max_distance < s.lidar.min_distance <;>
    by_cases h3 : d - s.lidar.offset < s.lidar.min_distance <;>
    simp [h1, h2, h3]

/-- C1. Range-sensor clamping. For a sonar and a lidar buffer whose bounds
satisfy `min_distance ≤ max_distance`, and every raw distance `d`: the `agl`
stored by the handler is `max_distance` when `d - offset > max_distance` (in
particular for `d = offset + max_distance + 5`), is `min_distance` when
`d - offset < min_distance`, is `d - offset` itself when that value lies
within the bounds, and therefore always lies in
`[min_distance, max_distance]`. -/
theorem range_sensor_clamping (env : Env) (id : Nat) (d : ℚ) (s : InsLpe)
    (hs : s.sonar.min_distance ≤ s.sonar.max_distance)
    (hl : s.lidar.min_distance ≤ s.lidar.max_distance) :
    ((d - s.sonar.offset > s.sonar.max_distance →
        (sonar_cb env id d s).sonar.agl = s.sonar.max_distance) ∧
      (sonar_cb env id (s.sonar.offset + s.sonar.max_distance + 5) s).sonar.agl
        = s.sonar.max_distance ∧
      (d - s.sonar.offset < s.sonar.min_distance →
        (sonar_cb env id d s).sonar.agl = s.sonar.min_distance) ∧
      (s.sonar.min_distance ≤ d - s.sonar.offset → d - s.sonar.offset ≤ s.sonar.max_distance →
        (sonar_cb env id d s).sonar.agl = d - s.sonar.offset) ∧
      s.sonar.min_distance ≤ (sonar_cb env id d s).sonar.agl ∧
      (sonar_cb env id d s).sonar.agl ≤ s.sonar.max_distance) ∧
    ((d - s.lidar.offset > s.lidar.max_distance →
        (lidar_cb env id d s).lidar.agl = s.lidar.max_distance) ∧
      (lidar_cb env id (s.lidar.offset + s.lidar.max_distance + 5) s).lidar.agl
        = s.lidar.max_distance ∧
      (d - s.lidar.offset < s.lidar.min_distance →
        (lidar_cb env id d s).lidar.agl = s.lidar.min_distance) ∧
      (s.lidar.min_distance ≤ d - s.lidar.offset → d - s.lidar.offset ≤ s.lidar.max_distance →
        (lidar_cb env id d s).lidar.agl = d - s.lidar.offset) ∧
      s.lidar.min_distance ≤ (lidar_cb env id d s).lidar.agl ∧
      (lidar_cb env id d s).lidar.agl ≤ s.lidar.max_distance) := by
  simp only [sonar_cb_agl, lidar_cb_agl]
  refine ⟨⟨?_, ?_, ?_, ?_, ?_, ?_⟩, ⟨?_, ?_, ?_, ?_, ?_, ?_⟩⟩
  · intro h
    rw [if_pos h, if_neg (not_lt.mpr hs)]
  · have h : s.sonar.offset + s.sonar.max_distance + 5 - s.sonar.offset > s.sonar.max_distance := by
      linarith
    rw [if_pos h, if_neg (not_lt.mpr hs)]
  · intro h
    have h1 : ¬ d - s.sonar.offset > s.sonar.max_distance := by
      intro h1
      linarith
    rw [if_neg h1, if_pos h]
  · intro h1 h2
    rw [if_neg (not_lt.mpr h2), if_neg (not_lt.mpr h1)]
  · split_ifs <;> linarith
  · split_ifs <;> linarith
  · intro h
    rw [if_pos h, if_neg (not_lt.mpr hl)]
  · have h : s.lidar.offset + s.lidar.max_distance + 5 - s.lidar.offset > s.lidar.max_distance := by
      linarith
    rw [if_pos h, if_neg (not_lt.mpr hl)]
  · intro h
    have h1 : ¬ d - s.lidar.offset > s.lidar.max_distance := by
      intro h1
      linarith
    rw [if_neg h1, if_pos h]
  · intro h1 h2
    rw [if_neg (not_lt.mpr h2), if_neg (not_lt.mpr h1)]
  · split_ifs <;> linarith
  · split_ifs <;> linarith

/-- Witness for C1: the sample estimator (bounds [1/5, 4], offset 1/10) with
a raw sonar / lidar distance of 10. -/
theorem range_sensor_clamping_witness :
    sampleIns.sonar.min_distance ≤ sampleIns.sonar.max_distance ∧
    sampleIns.lidar.min_distance ≤ sampleIns.lidar.max_distance ∧
    (sonar_cb sampleEnv 7 10 sampleIns).sonar.agl = 4 ∧
    (lidar_cb sampleEnv 7 10 sampleIns).lidar.agl = 4 :=
  have hs : sampleIns.sonar.min_distance ≤ sampleIns.sonar.max_distance := by
    norm_num [sampleIns, sampleRange]
  have hl : sampleIns.lidar.min_distance ≤ sampleIns.lidar.max_distance := by
    norm_num [sampleIns, sampleRange]
  have h := range_sensor_clamping sampleEnv 7 10 sampleIns hs hl
  ⟨hs, hl, h.1.1 (by norm_num [sampleIns, sampleRange]),
    h.2.1 (by norm_num [sampleIns, sampleRange])⟩

/-! ## State-space model: reset, constants, attitude terms, noise terms -/

theorem float_mat_zero_full {r c : Nat} (a : Fin r → Fin c → ℚ) (m n : Nat)
    (hm : r ≤ m) (hn : c ≤ n) : float_mat_zero a m n = fun _ _ => 0 := by
  funext i j
  have hi : i.val < m := lt_of_lt_of_le i.isLt hm
  have hj : j.val < n := lt_of_lt_of_le j.isLt hn
  simp [float_mat_zero, hi, hj]

/-- The state left by `ins_lpe_reset_states`, field by field. -/
theorem ins_lpe_reset_states_eq (s : InsLpe) :
    ins_lpe_reset_states s =
      { s with
        A := { initialized := true, rows := 9, cols := 9, matrix := fun _ _ => 0 },
        B := { initialized := true, rows := 9, cols := 3, matrix := fun _ _ => 0 },
        R := { initialized := true, rows := 3, cols := 3, matrix := fun _ _ => 0 },
        Q := { initialized := true, rows := 9, cols := 9, matrix := fun _ _ => 0 },
        P := { initialized := true, rows := 9, cols := 9, matrix := fun _ _ => 0 },
        x := fun _ => 0, u := fun _ => 0 } := by
  simp [ins_lpe_reset_states, n_x, n_u, float_mat_zero_full]

/-- C7. Reset is idempotent: `ins_lpe_reset_states` applied twice gives the
same estimator as applying it once. In that estimator A, Q, P are 9x9, B is
9x3, R is 3x3, every matrix entry and every component of x and u is 0, and
every matrix's ready marker is true. -/
theorem reset_idempotent (s : InsLpe) :
    ins_lpe_reset_states (ins_lpe_reset_states s) = ins_lpe_reset_states s ∧
    ((ins_lpe_reset_states s).A.rows = 9 ∧ (ins_lpe_reset_states s).A.cols = 9 ∧
      (ins_lpe_reset_states s).Q.rows = 9 ∧ (ins_lpe_reset_states s).Q.cols = 9 ∧
      (ins_lpe_reset_states s).P.rows = 9 ∧ (ins_lpe_reset_states s).P.cols = 9 ∧
      (ins_lpe_reset_states s).B.rows = 9 ∧ (ins_lpe_reset_states s).B.cols = 3 ∧
      (ins_lpe_reset_states s).R.rows = 3 ∧ (ins_lpe_reset_states s).R.cols = 3) ∧
    ((∀ i j, (ins_lpe_reset_states s).A.matrix i j = 0) ∧
      (∀ i j, (ins_lpe_reset_states s).B.matrix i j = 0) ∧
      (∀ i j, (ins_lpe_reset_states s).R.matrix i j = 0) ∧
      (∀ i j, (ins_lpe_reset_states s).Q.matrix i j = 0) ∧
      (∀ i j, (ins_lpe_reset_states s).P.matrix i j = 0) ∧
      (∀ i, (ins_lpe_reset_states s).x i = 0) ∧
      (∀ i, (ins_lpe_reset_states s).u i = 0)) ∧
    ((ins_lpe_reset_states s).A.initialized = true ∧
      (ins_lpe_reset_states s).B.initialized = true ∧
      (ins_lpe_reset_states s).R.initialized = true ∧
      (ins_lpe_reset_states s).Q.initialized = true ∧
      (ins_lpe_reset_states s).P.initialized = true) := by
  refine ⟨?_, ?_, ?_, ?_⟩
  · rw [ins_lpe_reset_states_eq (ins_lpe_reset_states s), ins_lpe_reset_states_eq s]
  · simp [ins_lpe_reset_states_eq]
  · simp [ins_lpe_reset_states_eq]
  · simp [ins_lpe_reset_states_eq]

/-- C4. Attitude refresh: whatever A held before, after
`ins_lpe_update_states` the (velocity row, bias column) block of A is the
negative transpose of the rotation matrix N returned by the attitude query:
`A[velocity i][bias j] = -N[j][i]` (`float_rmat_inv` being the transpose). -/
theorem attitude_refresh (env : Env) (s : InsLpe) (i j : Fin 3) :
    (ins_lpe_update_states env s).A.matrix (X_vel i) (X_bias j)
      = -(env.stateGetNedToBodyRMat_f j i) := by
  fin_cases i <;> fin_cases j <;>
    simp [ins_lpe_update_states, mat_set, float_rmat_inv, RMAT_ELMT, X_vel, X_bias,
      X_vx, X_vy, X_vz, X_bx, X_by, X_bz]

/-- C5. Structure of A and B after initialisation. After
`ins_lpe_reset_states`, `ins_lpe_init_states` and `ins_lpe_update_states`:
A is 1 at the three (position, same-axis velocity) entries, holds the
attitude terms in the (velocity row, bias column) block and is 0 everywhere
else (so every position column and every bias row is zero); B is 1 at the
three (velocity, same-axis input) entries and 0 elsewhere. Moreover
`ins_lpe_update_states` changes no entry of A outside the (velocity row,
bias column) block and leaves B as it is. -/
theorem A_B_structure (env : Env) (s : InsLpe) :
    ((∀ a : Fin 3,
        (ins_lpe_update_states env (ins_lpe_init_states (ins_lpe_reset_states s))).A.matrix
          (X_pos a) (X_vel a) = 1) ∧
      (∀ a b : Fin 3,
        (ins_lpe_update_states env (ins_lpe_init_states (ins_lpe_reset_states s))).A.matrix
          (X_vel a) (X_bias b) = -(env.stateGetNedToBodyRMat_f b a)) ∧
      (∀ i j : Fin 9, (∀ a : Fin 3, (i, j) ≠ (X_pos a, X_vel a)) →
        (∀ a b : Fin 3, (i, j) ≠ (X_vel a, X_bias b)) →
        (ins_lpe_update_states env (ins_lpe_init_states (ins_lpe_reset_states s))).A.matrix
          i j = 0) ∧
      (∀ (i : Fin 9) (a : Fin 3),
        (ins_lpe_update_states env (ins_lpe_init_states (ins_lpe_reset_states s))).A.matrix
          i (X_pos a) = 0) ∧
      (∀ (a : Fin 3) (j : Fin 9),
        (ins_lpe_update_states env (ins_lpe_init_states (ins_lpe_reset_states s))).A.matrix
          (X_bias a) j = 0)) ∧
    ((∀ a : Fin 3,
        (ins_lpe_update_states env (ins_lpe_init_states (ins_lpe_reset_states s))).B.matrix
          (X_vel a) (U_acc a) = 1) ∧
      (∀ (i : Fin 9) (k : Fin 3), (∀ a : Fin 3, (i, k) ≠ (X_vel a, U_acc a)) →
        (ins_lpe_update_states env (ins_lpe_init_states (ins_lpe_reset_states s))).B.matrix
          i k = 0)) ∧
    ((∀ i j : Fin 9, (∀ a b : Fin 3, (i, j) ≠ (X_vel a, X_bias b)) →
        (ins_lpe_update_states env s).A.matrix i j = s.A.matrix i j) ∧
      (ins_lpe_update_states env s).B = s.B) := by
  refine ⟨⟨?_, ?_, ?_, ?_, ?_⟩, ⟨?_, ?_⟩, ⟨?_, ?_⟩⟩
  · intro a
    fin_cases a <;>
      simp [ins_lpe_reset_states_eq, ins_lpe_update_states, ins_lpe_init_states, mat_set,
        X_pos, X_vel, X_x, X_y, X_z, X_vx, X_vy, X_vz, X_bx, X_by, X_bz]
  · intro a b
    fin_cases a <;> fin_cases b <;>
      simp [ins_lpe_update_states, mat_set, float_rmat_inv, RMAT_ELMT, X_vel, X_bias,
        X_vx, X_vy, X_vz, X_bx, X_by, X_bz]
  · intro i j h1 h2
    fin_cases i <;> fin_cases j <;>
      first
      | exact absurd h1 (by decide)
      | exact absurd h2 (by decide)
      | simp [ins_lpe_reset_states_eq, ins_lpe_update_states, ins_lpe_init_states, mat_set,
          X_x, X_y, X_z, X_vx, X_vy, X_vz, X_bx, X_by, X_bz]
  · intro i a
    fin_cases i <;> fin_cases a <;>
      simp [ins_lpe_reset_states_eq, ins_lpe_update_states, ins_lpe_init_states, mat_set,
        X_pos, X_x, X_y, X_z, X_vx, X_vy, X_vz, X_bx, X_by, X_bz]
  · intro a j
    fin_cases a <;> fin_cases j <;>
      simp [ins_lpe_reset_states_eq, ins_lpe_update_states, ins_lpe_init_states, mat_set,
        X_bias, X_x, X_y, X_z, X_vx, X_vy, X_vz, X_bx, X_by, X_bz]
  · intro a
    fin_cases a <;>
      simp [ins_lpe_reset_states_eq, ins_lpe_update_states, ins_lpe_init_states, mat_set,
        X_vel, U_acc, X_vx, X_vy, X_vz, U_ax, U_ay, U_az]
  · intro i k h
    fin_cases i <;> fin_cases k <;>
      first
      | exact absurd h (by decide)
      | simp [ins_lpe_reset_states_eq, ins_lpe_update_states, ins_lpe_init_states, mat_set,
          X_vx, X_vy, X_vz, U_ax, U_ay, U_az]
  · intro i j h
    fin_cases i <;> fin_cases j <;>
      first
      | exact absurd h (by decide)
      | simp [ins_lpe_update_states, mat_set, X_vx, X_vy, X_vz, X_bx, X_by, X_bz]
  · simp [ins_lpe_update_states]

/-- C6. Noise matrices. After `ins_lpe_reset_states` followed by
`ins_lpe_update_params`, Q is the 9x9 diagonal matrix with
`pn_p_noise_density^2` on the position entries, `pn_v_noise_density^2` on the
velocity entries and `pn_b_noise_density^2` on the bias entries; R is the 3x3
diagonal matrix `diag(accel_xy_stddev^2, accel_xy_stddev^2, accel_z_stddev^2)`;
every off-diagonal entry of Q and R is 0 and every diagonal entry is
non-negative. -/
theorem noise_matrices (s : InsLpe) :
    ((ins_lpe_update_params (ins_lpe_reset_states s)).Q.rows = 9 ∧
      (ins_lpe_update_params (ins_lpe_reset_states s)).Q.cols = 9 ∧
      (∀ a : Fin 3, (ins_lpe_update_params (ins_lpe_reset_states s)).Q.matrix
          (X_pos a) (X_pos a) = s.pn_p_noise_density ^ 2) ∧
      (∀ a : Fin 3, (ins_lpe_update_params (ins_lpe_reset_states s)).Q.matrix
          (X_vel a) (X_vel a) = s.pn_v_noise_density ^ 2) ∧
      (∀ a : Fin 3, (ins_lpe_update_params (ins_lpe_reset_states s)).Q.matrix
          (X_bias a) (X_bias a) = s.pn_b_noise_density ^ 2) ∧
      (∀ i j : Fin 9, i ≠ j →
        (ins_lpe_update_params (ins_lpe_reset_states s)).Q.matrix i j = 0) ∧
      (∀ i : Fin 9, 0 ≤ (ins_lpe_update_params (ins_lpe_reset_states s)).Q.matrix i i)) ∧
    ((ins_lpe_update_params (ins_lpe_reset_states s)).R.rows = 3 ∧
      (ins_lpe_update_params (ins_lpe_reset_states s)).R.cols = 3 ∧
      (ins_lpe_update_params (ins_lpe_reset_states s)).R.matrix U_ax U_ax
        = s.accel_xy_stddev ^ 2 ∧
      (ins_lpe_update_params (ins_lpe_reset_states s)).R.matrix U_ay U_ay
        = s.accel_xy_stddev ^ 2 ∧
      (ins_lpe_update_params (ins_lpe_reset_states s)).R.matrix U_az U_az
        = s.accel_z_stddev ^ 2 ∧
      (∀ i j : Fin 3, i ≠ j →
        (ins_lpe_update_params (ins_lpe_reset_states s)).R.matrix i j = 0) ∧
      (∀ i : Fin 3, 0 ≤ (ins_lpe_update_params (ins_lpe_reset_states s)).R.matrix i i)) := by
  refine ⟨⟨?_, ?_, ?_, ?_, ?_, ?_, ?_⟩, ⟨?_, ?_, ?_, ?_, ?_, ?_, ?_⟩⟩
  · simp [ins_lpe_reset_states_eq, ins_lpe_update_params]
  · simp [ins_lpe_reset_states_eq, ins_lpe_update_params]
  · intro a
    fin_cases a <;>
      simp [ins_lpe_reset_states_eq, ins_lpe_update_params, mat_set, sq, X_pos,
        X_x, X_y, X_z, X_vx, X_vy, X_vz, X_bx, X_by, X_bz]
  · intro a
    fin_cases a <;>
      simp [ins_lpe_reset_states_eq, ins_lpe_update_params, mat_set, sq, X_vel,
        X_x, X_y, X_z, X_vx, X_vy, X_vz, X_bx, X_by, X_bz]
  · intro a
    fin_cases a <;>
      simp [ins_lpe_reset_states_eq, ins_lpe_update_params, mat_set, sq, X_bias,
        X_x, X_y, X_z, X_vx, X_vy, X_vz, X_bx, X_by, X_bz]
  · intro i j h
    fin_cases i <;> fin_cases j <;>
      first
      | exact absurd rfl h
      | simp [ins_lpe_reset_states_eq, ins_lpe_update_params, mat_set,
          X_x, X_y, X_z, X_vx, X_vy, X_vz, X_bx, X_by, X_bz]
  · intro i
    fin_cases i <;>
      simp [ins_lpe_reset_states_eq, ins_lpe_update_params, mat_set,
        X_x, X_y, X_z, X_vx, X_vy, X_vz, X_bx, X_by, X_bz, mul_self_nonneg]
  · simp [ins_lpe_reset_states_eq, ins_lpe_update_params]
  · simp [ins_lpe_reset_states_eq, ins_lpe_update_params]
  · simp [ins_lpe_reset_states_eq, ins_lpe_update_params, mat_set, sq, U_ax, U_ay, U_az]
  · simp [ins_lpe_reset_states_eq, ins_lpe_update_params, mat_set, sq, U_ax, U_ay, U_az]
  · simp [ins_lpe_reset_states_eq, ins_lpe_update_params, mat_set, sq, U_ax, U_ay, U_az]
  · intro i j h
    fin_cases i <;> fin_cases j <;>
      first
      | exact absurd rfl h
      | simp [ins_lpe_reset_states_eq, ins_lpe_update_params, mat_set, U_ax, U_ay, U_az]
  · intro i
    fin_cases i <;>
      simp [ins_lpe_reset_states_eq, ins_lpe_update_params, mat_set, U_ax, U_ay, U_az,
        mul_self_nonneg]

/-! ## Error covariance -/

theorem applyCall_P (c : Call) (s : InsLpe) : (applyCall c s).P = s.P := by
  cases c <;> rfl

theorem runCalls_P (calls : List Call) (s : InsLpe) : (runCalls calls s).P = s.P := by
  induction calls generalizing s with
  | nil => rfl
  | cons c cs ih =>
    show (runCalls cs (applyCall c s)).P = s.P
    rw [ih, applyCall_P]

theorem ins_lpe_init_P (cfg : AbiConfig) (env : Env) (g : Globals) :
    (ins_lpe_init cfg env g).ins_lpe.P
      = { initialized := true, rows := 9, cols := 9, matrix := fun _ _ => 0 } := by
  simp [ins_lpe_init, ins_lpe_reset_states_eq, ins_lpe_init_states, ins_lpe_update_states,
    ins_lpe_update_params]

/-- C2. The error covariance P is symmetric and positive semi-definite in
every reachable state: after `ins_lpe_init` and any finite sequence of
`ins_lpe_periodic` calls and handler invocations (accel, sonar, lidar, baro,
GPS, velocity estimate) with arbitrary arguments, P is 9x9,
`P[i][j] = P[j][i]` for all i, j, and `v^T P v ≥ 0` for every vector v. -/
theorem P_symmetric_psd (cfg : AbiConfig) (env : Env) (g : Globals) (calls : List Call) :
    (runCalls calls (ins_lpe_init cfg env g).ins_lpe).P.rows = 9 ∧
    (runCalls calls (ins_lpe_init cfg env g).ins_lpe).P.cols = 9 ∧
    (∀ i j : Fin 9,
      (runCalls calls (ins_lpe_init cfg env g).ins_lpe).P.matrix i j
        = (runCalls calls (ins_lpe_init cfg env g).ins_lpe).P.matrix j i) ∧
    (∀ v : Fin 9 → ℚ,
      0 ≤ ∑ i : Fin 9, ∑ j : Fin 9,
        v i * (runCalls calls (ins_lpe_init cfg env g).ins_lpe).P.matrix i j * v j) := by
  rw [runCalls_P, ins_lpe_init_P]
  refine ⟨rfl, rfl, fun _ _ => rfl, fun v => ?_⟩
  simp

/-! ## Ingestion handlers: effect and frame -/

/-- C9. Handler effect and frame. Each of `sonar_cb`, `lidar_cb` and
`accel_cb` returns the estimator it was given with only its own sensor buffer
replaced: x, u, the matrices A, B, Q, R, P with their dimensions and ready
markers, the tunables and the estimator's initialized flag (`sameModel`) and
every other sensor buffer, with its freshness flag and calibration, are
identical before and after. The handler sets the `data_available` flag of
its own buffer to true and leaves that buffer's `offset`, `min_distance` and
`max_distance` as they were. -/
theorem handler_frame (env : Env) (sender_id stamp : Nat) (distance : ℚ) (accel : Int32Vect3)
    (s : InsLpe) :
    (sonar_cb env sender_id distance s
        = { s with sonar := (sonar_cb env sender_id distance s).sonar } ∧
      sameModel s (sonar_cb env sender_id distance s) ∧
      (sonar_cb env sender_id distance s).accel = s.accel ∧
      (sonar_cb env sender_id distance s).lidar = s.lidar ∧
      (sonar_cb env sender_id distance s).baro = s.baro ∧
      (sonar_cb env sender_id distance s).gps = s.gps ∧
      (sonar_cb env sender_id distance s).flow = s.flow ∧
      (sonar_cb env sender_id distance s).sonar.data_available = true ∧
      (sonar_cb env sender_id distance s).sonar.offset = s.sonar.offset ∧
      (sonar_cb env sender_id distance s).sonar.min_distance = s.sonar.min_distance ∧
      (sonar_cb env sender_id distance s).sonar.max_distance = s.sonar.max_distance) ∧
    (lidar_cb env sender_id distance s
        = { s with lidar := (lidar_cb env sender_id distance s).lidar } ∧
      sameModel s (lidar_cb env sender_id distance s) ∧
      (lidar_cb env sender_id distance s).accel = s.accel ∧
      (lidar_cb env sender_id distance s).sonar = s.sonar ∧
      (lidar_cb env sender_id distance s).baro = s.baro ∧
      (lidar_cb env sender_id distance s).gps = s.gps ∧
      (lidar_cb env sender_id distance s).flow = s.flow ∧
      (lidar_cb env sender_id distance s).lidar.data_available = true ∧
      (lidar_cb env sender_id distance s).lidar.offset = s.lidar.offset ∧
      (lidar_cb env sender_id distance s).lidar.min_distance = s.lidar.min_distance ∧
      (lidar_cb env sender_id distance s).lidar.max_distance = s.lidar.max_distance) ∧
    (accel_cb env sender_id stamp accel s
        = { s with accel := (accel_cb env sender_id stamp accel s).accel } ∧
      sameModel s (accel_cb env sender_id stamp accel s) ∧
      (accel_cb env sender_id stamp accel s).sonar = s.sonar ∧
      (accel_cb env sender_id stamp accel s).lidar = s.lidar ∧
      (accel_cb env sender_id stamp accel s).baro = s.baro ∧
      (accel_cb env sender_id stamp accel s).gps = s.gps ∧
      (accel_cb env sender_id stamp accel s).flow = s.flow ∧
      (accel_cb env sender_id stamp accel s).accel.data_available = true) := by
  have hm : ∀ s : InsLpe, sameModel s s := fun _ =>
    ⟨rfl, rfl, rfl, rfl, rfl, rfl, rfl, rfl, rfl, rfl, rfl, rfl, rfl⟩
  refine ⟨⟨rfl, hm s, rfl, rfl, rfl, rfl, rfl, rfl, ?_, ?_, ?_⟩,
    ⟨rfl, hm s, rfl, rfl, rfl, rfl, rfl, rfl, ?_, ?_, ?_⟩,
    ⟨rfl, hm s, rfl, rfl, rfl, rfl, rfl, rfl⟩⟩
  · unfold sonar_cb
    dsimp only
    split_ifs <;> rfl
  · unfold sonar_cb
    dsimp only
    split_ifs <;> rfl
  · unfold sonar_cb
    dsimp only
    split_ifs <;> rfl
  · unfold lidar_cb
    dsimp only
    split_ifs <;> rfl
  · unfold lidar_cb
    dsimp only
    split_ifs <;> rfl
  · unfold lidar_cb
    dsimp only
    split_ifs <;> rfl

/-! ## Fusion cycle -/

/-- C3 (evaluation at the failing input). A sonar reading of distance 2 is
stored, which sets the sonar `data_available` flag; one call of
`ins_lpe_periodic` on that estimator returns it as it is, with the flag
still set. The periodic function returns every estimator as it is. -/
theorem periodic_keeps_fresh_flag :
    (sonar_cb sampleEnv 0 2 sampleIns).sonar.data_available = true ∧
    (ins_lpe_periodic (sonar_cb sampleEnv 0 2 sampleIns)).sonar.data_available = true ∧
    ins_lpe_periodic (sonar_cb sampleEnv 0 2 sampleIns) = sonar_cb sampleEnv 0 2 sampleIns ∧
    (∀ s : InsLpe, ins_lpe_periodic s = s) :=
  ⟨rfl, rfl, rfl, fun _ => rfl⟩

/-! ## Initialisation and bus binding -/

theorem ins_lpe_init_queue (cfg : AbiConfig) (env : Env) (g : Globals) :
    (ins_lpe_init cfg env g).abi_queues =
      [{ msg := AbiMsg.BARO_ABS, id := cfg.INS_LPE_BARO_ID, cb := Callback.baro_cb },
       { msg := AbiMsg.AGL, id := cfg.INS_LPE_LIDAR_ID, cb := Callback.lidar_cb },
       { msg := AbiMsg.AGL, id := cfg.INS_LPE_SONAR_ID, cb := Callback.sonar_cb },
       { msg := AbiMsg.VELOCITY_ESTIMATE, id := cfg.INS_LPE_VEL_ID, cb := Callback.vel_est_cb },
       { msg := AbiMsg.GPS, id := cfg.INS_LPE_GPS_ID, cb := Callback.gps_cb },
       { msg := AbiMsg.IMU_ACCEL_INT32, id := cfg.INS_LPE_IMU_ID, cb := Callback.accel_cb }]
      ++ g.abi_queues := by
  simp [ins_lpe_init, AbiBindMsg]

theorem registrations_init (cfg : AbiConfig) (env : Env) (g : Globals) (cb : Callback) :
    registrations cb (ins_lpe_init cfg env g).abi_queues = registrations cb g.abi_queues + 1 := by
  rw [ins_lpe_init_queue]
  cases cb <;> simp [registrations, List.filter_cons]

theorem registrations_initCalls (cfg : AbiConfig) (envs : List Env) (g : Globals)
    (cb : Callback) :
    registrations cb (initCalls cfg envs g).abi_queues
      = registrations cb g.abi_queues + envs.length := by
  induction envs generalizing g with
  | nil => rfl
  | cons env rest ih =>
    show registrations cb (initCalls cfg rest (ins_lpe_init cfg env g)).abi_queues = _
    rw [ih, registrations_init, List.length_cons]
    omega

/-- C8 (counterexample). Two calls of `ins_lpe_init` from program start leave
two bindings of `sonar_cb` on the bus, not one: the second call, made on an
initialised estimator, adds a further binding. -/
theorem init_twice_registers_twice :
    (ins_lpe_init sampleCfg sampleEnv sampleStart).ins_lpe.initialized = true ∧
    registrations Callback.sonar_cb (ins_lpe_init sampleCfg sampleEnv sampleStart).abi_queues
      = 1 ∧
    registrations Callback.sonar_cb
      (initCalls sampleCfg [sampleEnv, sampleEnv] sampleStart).abi_queues = 2 ∧
    registrations Callback.sonar_cb
      (initCalls sampleCfg [sampleEnv, sampleEnv] sampleStart).abi_queues ≠ 1 := by
  refine ⟨rfl, ?_, ?_, ?_⟩
  · rw [registrations_init]
    rfl
  · rw [registrations_initCalls]
    rfl
  · rw [registrations_initCalls]
    decide

/-- C8 (amended). A call of `ins_lpe_init` on an estimator that is not yet
initialised runs reset, constants, attitude terms and noise terms in this
order, once, and sets the initialized flag. Every call of `ins_lpe_init`
puts one more binding of each of the six handlers, under its configured
source identifier, in front of the bindings the bus already holds; so after
a sequence of n calls each handler has n more bindings than before (exactly
one more only for n = 1). -/
theorem init_registers_every_call (cfg : AbiConfig) (env : Env) (envs : List Env)
    (g : Globals) (h : g.ins_lpe.initialized = false) :
    (ins_lpe_init cfg env g).ins_lpe =
      { ins_lpe_update_params
          (ins_lpe_update_states env (ins_lpe_init_states (ins_lpe_reset_states g.ins_lpe))) with
        initialized := true } ∧
    (ins_lpe_init cfg env g).abi_queues =
      [{ msg := AbiMsg.BARO_ABS, id := cfg.INS_LPE_BARO_ID, cb := Callback.baro_cb },
       { msg := AbiMsg.AGL, id := cfg.INS_LPE_LIDAR_ID, cb := Callback.lidar_cb },
       { msg := AbiMsg.AGL, id := cfg.INS_LPE_SONAR_ID, cb := Callback.sonar_cb },
       { msg := AbiMsg.VELOCITY_ESTIMATE, id := cfg.INS_LPE_VEL_ID, cb := Callback.vel_est_cb },
       { msg := AbiMsg.GPS, id := cfg.INS_LPE_GPS_ID, cb := Callback.gps_cb },
       { msg := AbiMsg.IMU_ACCEL_INT32, id := cfg.INS_LPE_IMU_ID, cb := Callback.accel_cb }]
      ++ g.abi_queues ∧
    (∀ cb : Callback,
      registrations cb (initCalls cfg envs g).abi_queues
        = registrations cb g.abi_queues + envs.length) := by
  refine ⟨?_, ins_lpe_init_queue cfg env g, registrations_initCalls cfg envs g⟩
  have hg : ({ g.ins_lpe with initialized := false } : InsLpe) = g.ins_lpe := by
    rw [← h]
  simp only [ins_lpe_init, Bool.not_false, if_true, hg]

/-- Witness for C8 (amended): program start and a sequence of three calls. -/
theorem init_registers_every_call_witness :
    sampleStart.ins_lpe.initialized = false ∧
    (∀ cb : Callback,
      registrations cb (initCalls sampleCfg [sampleEnv, sampleEnv, sampleEnv] sampleStart).abi_queues
        = registrations cb sampleStart.abi_queues + 3) :=
  ⟨rfl, (init_registers_every_call sampleCfg sampleEnv [sampleEnv, sampleEnv, sampleEnv]
    sampleStart rfl).2.2⟩

/-! ## Source filtering -/

/-- On the bus set up by `ins_lpe_init`, a message from a sender other than
the specific source a handler is bound to leaves that handler's buffer as it
is. -/
theorem AbiSendMsg_other_source (cfg : AbiConfig) (env0 env : Env) (g : Globals)
    (sender_id : Nat) (ev : AbiEvent) (s : InsLpe) (hq : g.abi_queues = []) :
    (cfg.INS_LPE_SONAR_ID ≠ cfg.ABI_BROADCAST → cfg.INS_LPE_SONAR_ID ≠ sender_id →
      (AbiSendMsg cfg env sender_id ev (ins_lpe_init cfg env0 g).abi_queues s).sonar = s.sonar) ∧
    (cfg.INS_LPE_LIDAR_ID ≠ cfg.ABI_BROADCAST → cfg.INS_LPE_LIDAR_ID ≠ sender_id →
      (AbiSendMsg cfg env sender_id ev (ins_lpe_init cfg env0 g).abi_queues s).lidar = s.lidar) ∧
    (cfg.INS_LPE_IMU_ID ≠ cfg.ABI_BROADCAST → cfg.INS_LPE_IMU_ID ≠ sender_id →
      (AbiSendMsg cfg env sender_id ev (ins_lpe_init cfg env0 g).abi_queues s).accel = s.accel) := by
  rw [ins_lpe_init_queue, hq]
  refine ⟨?_, ?_, ?_⟩
  · intro h1 h2
    cases ev <;> simp [AbiSendMsg, AbiEvent.msg, callHandler, h1, h2, baro_cb, gps_cb,
      vel_est_cb] <;> split_ifs <;> rfl
  · intro h1 h2
    cases ev <;> simp [AbiSendMsg, AbiEvent.msg, callHandler, h1, h2, baro_cb, gps_cb,
      vel_est_cb] <;> split_ifs <;> rfl
  · intro h1 h2
    cases ev <;> simp [AbiSendMsg, AbiEvent.msg, callHandler, h1, h2, baro_cb, gps_cb,
      vel_est_cb]
    split_ifs <;> rfl

/-- On the bus set up by `ins_lpe_init`, a range or accelerometer message
from any sender reaches a handler bound to the wildcard, and the handler's
buffer becomes what the handler stores for that message. -/
theorem AbiSendMsg_wildcard (cfg : AbiConfig) (env0 env : Env) (g : Globals)
    (sender_id stamp : Nat) (distance : ℚ) (accel : Int32Vect3) (s : InsLpe)
    (hq : g.abi_queues = []) :
    (cfg.INS_LPE_SONAR_ID = cfg.ABI_BROADCAST →
      (AbiSendMsg cfg env sender_id (AbiEvent.AGL distance)
          (ins_lpe_init cfg env0 g).abi_queues s).sonar
        = (sonar_cb env sender_id distance s).sonar) ∧
    (cfg.INS_LPE_LIDAR_ID = cfg.ABI_BROADCAST →
      (AbiSendMsg cfg env sender_id (AbiEvent.AGL distance)
          (ins_lpe_init cfg env0 g).abi_queues s).lidar
        = (lidar_cb env sender_id distance s).lidar) ∧
    (cfg.INS_LPE_IMU_ID = cfg.ABI_BROADCAST →
      (AbiSendMsg cfg env sender_id (AbiEvent.IMU_ACCEL_INT32 stamp accel)
          (ins_lpe_init cfg env0 g).abi_queues s).accel
        = (accel_cb env sender_id stamp accel s).accel) := by
  rw [ins_lpe_init_queue, hq]
  refine ⟨?_, ?_, ?_⟩
  · intro h1
    simp [AbiSendMsg, AbiEvent.msg, callHandler, h1]
    split_ifs <;> rfl
  · intro h1
    simp [AbiSendMsg, AbiEvent.msg, callHandler, h1]
    split_ifs <;> rfl
  · intro h1
    simp [AbiSendMsg, AbiEvent.msg, callHandler, h1]

/-- C10 (evaluation at the failing input). After `ins_lpe_init` with the
barometer handler bound to the wildcard, a BARO_ABS message from sender 5
with pressure 101325 is delivered to `baro_cb`, whose body is empty: the
estimator, and with it the barometer buffer and its `data_available` flag,
is the same as before the message. -/
theorem baro_message_not_stored :
    sampleCfg.INS_LPE_BARO_ID = sampleCfg.ABI_BROADCAST ∧
    AbiSendMsg sampleCfg sampleEnv 5 (AbiEvent.BARO_ABS 101325) sampleInit.abi_queues
        sampleInit.ins_lpe
      = baro_cb 5 101325 sampleInit.ins_lpe ∧
    baro_cb 5 101325 sampleInit.ins_lpe = sampleInit.ins_lpe ∧
    (AbiSendMsg sampleCfg sampleEnv 5 (AbiEvent.BARO_ABS 101325) sampleInit.abi_queues
        sampleInit.ins_lpe).baro.data_available = false := by
  have hq : sampleInit.abi_queues
      = [{ msg := AbiMsg.BARO_ABS, id := 0, cb := Callback.baro_cb },
         { msg := AbiMsg.AGL, id := 0, cb := Callback.lidar_cb },
         { msg := AbiMsg.AGL, id := 0, cb := Callback.sonar_cb },
         { msg := AbiMsg.VELOCITY_ESTIMATE, id := 0, cb := Callback.vel_est_cb },
         { msg := AbiMsg.GPS, id := 1, cb := Callback.gps_cb },
         { msg := AbiMsg.IMU_ACCEL_INT32, id := 0, cb := Callback.accel_cb }] := rfl
  have hsend : AbiSendMsg sampleCfg sampleEnv 5 (AbiEvent.BARO_ABS 101325) sampleInit.abi_queues
      sampleInit.ins_lpe = baro_cb 5 101325 sampleInit.ins_lpe := by
    rw [hq]
    simp [AbiSendMsg, AbiEvent.msg, callHandler, sampleCfg]
  refine ⟨rfl, hsend, rfl, ?_⟩
  rw [hsend]
  rfl

end Paparazzi
